import Mathlib

/-!
Shallow embedding of the `buicap_py` wrapper (src/src/buicap_py/api.py and
src/src/buicap_py/_core.py): a ctypes facade over the Digital Check vendor
DLL.  Python strings are modelled as `List Char`, bytes as `Nat`, the native
library as a record of functions that either return an integer status code or
raise (modelled by `Except`).  Each public facade method is translated
statement by statement from `api.py`; alongside its result it returns the
list of native symbols it actually invoked, so that "no native call occurs"
is the statement that this trace is empty.
-/

namespace BuicapPy

/-- A Python string literal, as its list of characters. -/
def pystr (s : String) : List Char := s.data

/-- Python `f"...{i}..."` interpolation of an integer. -/
def intRepr (i : Int) : List Char := (toString i).data

/-- Exceptions observable at the facade boundary.  `buicap msg` is the
wrapper's own typed failure `BuicapException(msg)` (modelled from the spec:
`exceptions.py` is not under src/; the spec calls it "a typed failure");
`valueError` is Python's built-in `ValueError`; `nativeErr` is an exception
raised by the ctypes call itself and not caught by the facade;
`attributeError` is the error from touching an attribute of `None`. -/
inductive PyExc where
  | buicap (msg : List Char)
  | valueError (msg : List Char)
  | nativeErr (msg : List Char)
  | attributeError
deriving DecidableEq, Repr

/-- Modelled from the spec: the static error-code dictionary `error_dict`
(`error_codes.py` is not under src/).  The spec only requires "a static,
immutable lookup table populated at process start", so it is modelled as an
arbitrary partial map from integer codes to description strings; `none`
means the code is absent from the dictionary. -/
abbrev ErrDict := Int → Option (List Char)

/-- What the native `DCCScan` writes through its output pointers, together
with its return code: the final contents of the 80-byte MICR buffer (as a
function from byte index to byte value), the two output integers, and the
contents of the 32-cell document-status array. -/
structure ScanRaw where
  code : Int
  micrBuf : Nat → Nat
  imageQuality : Int
  contrast : Int
  docStatusBuf : Nat → Int

/-- The loaded vendor library: one field per native entry point the facade
calls, with the argument shapes declared in `_core.py`'s
`setup_functions`.  `Except.error m` models the ctypes call raising an
exception with message `m`; `Except.ok` is a normal return of the declared
`c_int` result (plus output-parameter contents where the signature has
output pointers). -/
structure NativeLib where
  BUICSetParamString : Int → List Char → Except (List Char) Int
  BUICInit : Except (List Char) Int
  IsDCCUSBScannerAvailable : Except (List Char) (Int × Int × Int)
  BUICExit : Except (List Char) Int
  BUICEjectDocument : Except (List Char) Int
  BUICEjectPocket : Int → Int → Except (List Char) Int
  DCCCleanMode : Int → Except (List Char) Int
  BUICCleanDocument : Except (List Char) Int
  DocketPortCalibrate : Int → Except (List Char) Int
  BUICSetParam : Int → Int → Except (List Char) Int
  BUICGetParam : Int → Except (List Char) Int
  DCCScan : Option (List Char) → Option (List Char) → Option (List Char) →
      Option (List Char) → Except (List Char) ScanRaw

/-- The facade state (`ScannerIntegrationAPI.self`): the `_dll_loaded` flag,
the `lib` handle and the `dll_path` string, the latter two `None` after
`close`. -/
structure API where
  dll_loaded : Bool
  lib : Option NativeLib
  dll_path : Option (List Char)

/-- The `@check_loaded` decorator (api.py lines 13-22): if `self._dll_loaded`
is false, raise `BuicapException("DLL not loaded")` without running the
wrapped body (hence with an empty native-call trace); otherwise run the
body. -/
def check_loaded {α : Type} (s : API) (body : Unit → Except PyExc α × List String) :
    Except PyExc α × List String :=
  if s.dll_loaded then body ()
  else (Except.error (PyExc.buicap (pystr "DLL not loaded")), [])

/-- `ScannerIntegrationAPI._error_message` (api.py lines 47-57):
`error_dict.get(error_code, f"Unknown error (code: {error_code})")`. -/
def _error_message (ed : ErrDict) (error_code : Int) : List Char :=
  (ed error_code).getD (pystr "Unknown error (code: " ++ intRepr error_code ++ pystr ")")

/-- `buic_set_param_string` (api.py lines 59-102): encode the value, call
`BUICSetParamString`, and on a non-zero result raise
`BuicapException(f"Failed to set parameter {iParameter}: {error_msg}")`.
There is no try/except, so an exception from the native call propagates. -/
def buic_set_param_string (ed : ErrDict) (s : API) (iParameter : Int)
    (sParamString : List Char) : Except PyExc Int × List String :=
  check_loaded s fun _ =>
    match s.lib with
    | none => (Except.error PyExc.attributeError, [])
    | some lib =>
      match lib.BUICSetParamString iParameter sParamString with
      | Except.error m => (Except.error (PyExc.nativeErr m), ["BUICSetParamString"])
      | Except.ok result =>
        if result ≠ 0 then
          (Except.error (PyExc.buicap
            (pystr "Failed to set parameter " ++ intRepr iParameter ++ pystr ": " ++
              _error_message ed result)), ["BUICSetParamString"])
        else (Except.ok result, ["BUICSetParamString"])

/-- `buic_init` (api.py lines 104-111): `return int(self.lib.BUICInit())`
inside a try/except that turns any exception into
`BuicapException("Failed to initialize DLL")`.  The returned code is NOT
inspected: a negative return is passed through as a normal result. -/
def buic_init (s : API) : Except PyExc Int × List String :=
  check_loaded s fun _ =>
    match s.lib with
    | none => (Except.error (PyExc.buicap (pystr "Failed to initialize DLL")), [])
    | some lib =>
      match lib.BUICInit with
      | Except.ok r => (Except.ok r, ["BUICInit"])
      | Except.error _ =>
        (Except.error (PyExc.buicap (pystr "Failed to initialize DLL")), ["BUICInit"])

/-- The dict returned by `is_dcc_usb_scanner_available`. -/
structure UsbAvail where
  vendor_id : Int
  product_id : Int
  result : Int
deriving DecidableEq, Repr

/-- `is_dcc_usb_scanner_available` (api.py lines 113-138). -/
def is_dcc_usb_scanner_available (s : API) : Except PyExc UsbAvail × List String :=
  check_loaded s fun _ =>
    match s.lib with
    | none =>
      (Except.error (PyExc.buicap (pystr "Failed to check USB scanner availability")), [])
    | some lib =>
      match lib.IsDCCUSBScannerAvailable with
      | Except.ok (v, p, r) =>
        (Except.ok { vendor_id := v, product_id := p, result := r },
          ["IsDCCUSBScannerAvailable"])
      | Except.error _ =>
        (Except.error (PyExc.buicap (pystr "Failed to check USB scanner availability")),
          ["IsDCCUSBScannerAvailable"])

/-- `close` (api.py lines 140-153).  The method is itself decorated with
`@check_loaded`, so when `_dll_loaded` is false it raises
`BuicapException("DLL not loaded")` before its own body runs (which makes the
body's `if not self._dll_loaded: return` unreachable).  Otherwise it sets
`_dll_loaded = False`, calls `BUICExit` in a try/except that converts any
exception into `BuicapException("Failed to close DLL")`, and in a `finally`
clears `self.lib` and `self.dll_path` to `None`.  Returns the result, the
new facade state, and the native-call trace. -/
def close (s : API) : Except PyExc Int × API × List String :=
  if s.dll_loaded then
    let cleared : API := { dll_loaded := false, lib := none, dll_path := none }
    match s.lib with
    | none => (Except.error (PyExc.buicap (pystr "Failed to close DLL")), cleared, [])
    | some lib =>
      match lib.BUICExit with
      | Except.ok r => (Except.ok r, cleared, ["BUICExit"])
      | Except.error _ =>
        (Except.error (PyExc.buicap (pystr "Failed to close DLL")), cleared, ["BUICExit"])
  else (Except.error (PyExc.buicap (pystr "DLL not loaded")), s, [])

/-- `eject_document` (api.py lines 155-174). -/
def eject_document (s : API) : Except PyExc Int × List String :=
  check_loaded s fun _ =>
    match s.lib with
    | none => (Except.error (PyExc.buicap (pystr "Failed to eject document")), [])
    | some lib =>
      match lib.BUICEjectDocument with
      | Except.ok r => (Except.ok r, ["BUICEjectDocument"])
      | Except.error _ =>
        (Except.error (PyExc.buicap (pystr "Failed to eject document")), ["BUICEjectDocument"])

/-- `buic_eject_pocket` (api.py lines 176-196).  The whole body is one
try/except: `if iPocket != 0: raise ValueError("iPocket must be 0")` sits
INSIDE the try, so the `except Exception` clause catches that `ValueError`
too and re-raises it as `BuicapException("Failed to eject pocket")`; the
specific detail never reaches the caller.  The native call happens only when
`iPocket == 0`. -/
def buic_eject_pocket (s : API) (iDirection : Int) (iPocket : Int := 0) :
    Except PyExc Int × List String :=
  check_loaded s fun _ =>
    if iPocket ≠ 0 then
      (Except.error (PyExc.buicap (pystr "Failed to eject pocket")), [])
    else
      match s.lib with
      | none => (Except.error (PyExc.buicap (pystr "Failed to eject pocket")), [])
      | some lib =>
        match lib.BUICEjectPocket iDirection iPocket with
        | Except.ok r => (Except.ok r, ["BUICEjectPocket"])
        | Except.error _ =>
          (Except.error (PyExc.buicap (pystr "Failed to eject pocket")), ["BUICEjectPocket"])

/-- `dcc_clean_mode` (api.py lines 198-210): `if iMode not in (0, 1): raise
ValueError("iMode must be 0 or 1")` BEFORE the try block, so the caller sees
the bare `ValueError`; only then the guarded native call. -/
def dcc_clean_mode (s : API) (iMode : Int) : Except PyExc Int × List String :=
  check_loaded s fun _ =>
    if iMode = 0 ∨ iMode = 1 then
      match s.lib with
      | none => (Except.error (PyExc.buicap (pystr "Failed to set clean mode")), [])
      | some lib =>
        match lib.DCCCleanMode iMode with
        | Except.ok r => (Except.ok r, ["DCCCleanMode"])
        | Except.error _ =>
          (Except.error (PyExc.buicap (pystr "Failed to set clean mode")), ["DCCCleanMode"])
    else (Except.error (PyExc.valueError (pystr "iMode must be 0 or 1")), [])

/-- `buic_clean_document` (api.py lines 212-226): calls the native symbol
`BUICCleanDocument` (note: `setup_functions` in `_core.py` configures
`BUICClearDocument` instead). -/
def buic_clean_document (s : API) : Except PyExc Int × List String :=
  check_loaded s fun _ =>
    match s.lib with
    | none => (Except.error (PyExc.buicap (pystr "Failed to clean document")), [])
    | some lib =>
      match lib.BUICCleanDocument with
      | Except.ok r => (Except.ok r, ["BUICCleanDocument"])
      | Except.error _ =>
        (Except.error (PyExc.buicap (pystr "Failed to clean document")), ["BUICCleanDocument"])

/-- `docket_port_calibrate` (api.py lines 228-245): same shape as
`dcc_clean_mode`, with a bare `ValueError` raised before the try block on an
out-of-range mode. -/
def docket_port_calibrate (s : API) (iMode : Int) : Except PyExc Int × List String :=
  check_loaded s fun _ =>
    if iMode = 0 ∨ iMode = 1 then
      match s.lib with
      | none => (Except.error (PyExc.buicap (pystr "Failed to calibrate docket port")), [])
      | some lib =>
        match lib.DocketPortCalibrate iMode with
        | Except.ok r => (Except.ok r, ["DocketPortCalibrate"])
        | Except.error _ =>
          (Except.error (PyExc.buicap (pystr "Failed to calibrate docket port")),
            ["DocketPortCalibrate"])
    else (Except.error (PyExc.valueError (pystr "iMode must be 0 or 1")), [])

/-- `buic_set_param` (api.py lines 247-267): call `BUICSetParam`; a NEGATIVE
result raises `BuicapException(f"Failed to set parameter {iParam}:
{error_msg}")`; zero or positive results are returned.  No try/except. -/
def buic_set_param (ed : ErrDict) (s : API) (iParam : Int) (iValue : Int) :
    Except PyExc Int × List String :=
  check_loaded s fun _ =>
    match s.lib with
    | none => (Except.error PyExc.attributeError, [])
    | some lib =>
      match lib.BUICSetParam iParam iValue with
      | Except.error m => (Except.error (PyExc.nativeErr m), ["BUICSetParam"])
      | Except.ok result =>
        if result < 0 then
          (Except.error (PyExc.buicap
            (pystr "Failed to set parameter " ++ intRepr iParam ++ pystr ": " ++
              _error_message ed result)), ["BUICSetParam"])
        else (Except.ok result, ["BUICSetParam"])

/-- `buic_get_param` (api.py lines 269-281): no error handling at all. -/
def buic_get_param (s : API) (iParam : Int) : Except PyExc Int × List String :=
  check_loaded s fun _ =>
    match s.lib with
    | none => (Except.error PyExc.attributeError, [])
    | some lib =>
      match lib.BUICGetParam iParam with
      | Except.ok r => (Except.ok r, ["BUICGetParam"])
      | Except.error m => (Except.error (PyExc.nativeErr m), ["BUICGetParam"])

/-- Python `bytes.partition(b"\x00")[0]`: the bytes strictly before the
first null. -/
def bytes_before_null (bs : List Nat) : List Nat := bs.takeWhile (· ≠ 0)

/-- Python `bytes.decode("ascii", errors="ignore")`: bytes ≥ 128 are
undecodable in ASCII and are dropped; the rest become characters. -/
def decode_ascii_ignore (bs : List Nat) : List Char :=
  (bs.filter (fun b => b < 128)).map Char.ofNat

/-- Python `str.isspace` on the characters `str.strip()` removes:
space, tab, newline, carriage return, vertical tab, form feed. -/
def py_isspace (c : Char) : Bool :=
  c == ' ' || c == '\t' || c == '\n' || c == '\r' || c.toNat == 11 || c.toNat == 12

/-- Python `str.strip()`: drop leading and trailing whitespace. -/
def py_strip (cs : List Char) : List Char :=
  (((cs.dropWhile py_isspace).reverse).dropWhile py_isspace).reverse

/-- The MICR text extraction in `dcc_scan` (api.py lines 321-325):
`micr_buffer.raw.partition(b"\x00")[0].decode("ascii", errors="ignore").strip()`
applied to the final contents of the fixed 80-byte buffer. -/
def micr_text_of (buf : Nat → Nat) : List Char :=
  py_strip (decode_ascii_ignore (bytes_before_null ((List.range 80).map buf)))

/-- The dict returned by `dcc_scan` (api.py lines 327-333). -/
structure ScanResult where
  micr : List Char
  final_image_quality : Int
  final_contrast : Int
  doc_status : List Int
  result : Int
deriving DecidableEq, Repr

/-- `dcc_scan` (api.py lines 283-333): allocate an 80-byte MICR buffer, two
output ints and a 32-cell int array, call `DCCScan` with the four optional
path arguments (null when omitted), then build the result dict.  No
try/except: a native exception propagates. -/
def dcc_scan (s : API) (front_tiff back_tiff front_jpeg back_jpeg : Option (List Char)) :
    Except PyExc ScanResult × List String :=
  check_loaded s fun _ =>
    match s.lib with
    | none => (Except.error PyExc.attributeError, [])
    | some lib =>
      match lib.DCCScan front_tiff back_tiff front_jpeg back_jpeg with
      | Except.error m => (Except.error (PyExc.nativeErr m), ["DCCScan"])
      | Except.ok raw =>
        (Except.ok
          { micr := micr_text_of raw.micrBuf
            final_image_quality := raw.imageQuality
            final_contrast := raw.contrast
            doc_status := (List.range 32).map raw.docStatusBuf
            result := raw.code }, ["DCCScan"])

/-- The native symbols whose attributes `DCLibraryInitializer.setup_functions`
(_core.py lines 25-81) touches while declaring argtypes/restype; a ctypes
attribute access resolves the symbol, so these are exactly the symbols
resolved at load time.  Note line 55 configures `BUICClearDocument`. -/
def setup_symbols : List String :=
  ["BUICSetParamString", "BUICInit", "IsDCCUSBScannerAvailable", "BUICExit",
   "BUICEjectDocument", "BUICEjectPocket", "DCCCleanMode", "BUICClearDocument",
   "DocketPortCalibrate", "BUICSetParam", "BUICGetParam", "DCCScan"]

/-- Construction succeeds (w.r.t. symbol resolution) iff every symbol touched
by `setup_functions` is exported by the library. -/
def construction_resolves (exported : List String) : Bool :=
  setup_symbols.all exported.contains

/-! ### Concrete fixtures for witnesses -/

/-- An error dictionary with no entries (every code is "unknown"). -/
def emptyDict : ErrDict := fun _ => none

/-- A stub native library whose calls all succeed with code 0, standing in
for the mocked DLL of tests/unit/test_api.py. -/
def stubLib : NativeLib where
  BUICSetParamString := fun _ _ => Except.ok 0
  BUICInit := Except.ok 0
  IsDCCUSBScannerAvailable := Except.ok (1, 2, 30)
  BUICExit := Except.ok 0
  BUICEjectDocument := Except.ok 0
  BUICEjectPocket := fun _ _ => Except.ok 0
  DCCCleanMode := fun _ => Except.ok 0
  BUICCleanDocument := Except.ok 0
  DocketPortCalibrate := fun _ => Except.ok 0
  BUICSetParam := fun _ _ => Except.ok 0
  BUICGetParam := fun _ => Except.ok 0
  DCCScan := fun _ _ _ _ =>
    Except.ok { code := 0, micrBuf := fun _ => 0, imageQuality := 0, contrast := 0,
                docStatusBuf := fun _ => 0 }

/-- A freshly constructed facade over `stubLib`. -/
def loadedState : API :=
  { dll_loaded := true, lib := some stubLib, dll_path := some (pystr "buicap32.dll") }

/-- The facade after `close`: flag down, handle and path cleared. -/
def unloadedState : API := { dll_loaded := false, lib := none, dll_path := none }

/-! ### Claims -/

/-- C1: for every public facade operation invoked while the facade is in the
Unloaded state (`_dll_loaded` false), the call raises the
`BuicapException("DLL not loaded")` failure and no native library function is
invoked (the native-call trace is empty); `close` additionally leaves the
state untouched. -/
theorem C1_unloaded_rejects_all (ed : ErrDict) (s : API) (h : s.dll_loaded = false) :
    (∀ p v, buic_set_param_string ed s p v =
      (Except.error (PyExc.buicap (pystr "DLL not loaded")), [])) ∧
    buic_init s = (Except.error (PyExc.buicap (pystr "DLL not loaded")), []) ∧
    is_dcc_usb_scanner_available s =
      (Except.error (PyExc.buicap (pystr "DLL not loaded")), []) ∧
    close s = (Except.error (PyExc.buicap (pystr "DLL not loaded")), s, []) ∧
    eject_document s = (Except.error (PyExc.buicap (pystr "DLL not loaded")), []) ∧
    (∀ d p, buic_eject_pocket s d p =
      (Except.error (PyExc.buicap (pystr "DLL not loaded")), [])) ∧
    (∀ m, dcc_clean_mode s m =
      (Except.error (PyExc.buicap (pystr "DLL not loaded")), [])) ∧
    buic_clean_document s = (Except.error (PyExc.buicap (pystr "DLL not loaded")), []) ∧
    (∀ m, docket_port_calibrate s m =
      (Except.error (PyExc.buicap (pystr "DLL not loaded")), [])) ∧
    (∀ p v, buic_set_param ed s p v =
      (Except.error (PyExc.buicap (pystr "DLL not loaded")), [])) ∧
    (∀ p, buic_get_param s p =
      (Except.error (PyExc.buicap (pystr "DLL not loaded")), [])) ∧
    (∀ a b c d, dcc_scan s a b c d =
      (Except.error (PyExc.buicap (pystr "DLL not loaded")), [])) := by
  refine ⟨fun p v => ?_, ?_, ?_, ?_, ?_, fun d p => ?_, fun m => ?_, ?_, fun m => ?_,
    fun p v => ?_, fun p => ?_, fun a b c d => ?_⟩
  · simp [buic_set_param_string, check_loaded, h]
  · simp [buic_init, check_loaded, h]
  · simp [is_dcc_usb_scanner_available, check_loaded, h]
  · simp [close, h]
  · simp [eject_document, check_loaded, h]
  · simp [buic_eject_pocket, check_loaded, h]
  · simp [dcc_clean_mode, check_loaded, h]
  · simp [buic_clean_document, check_loaded, h]
  · simp [docket_port_calibrate, check_loaded, h]
  · simp [buic_set_param, check_loaded, h]
  · simp [buic_get_param, check_loaded, h]
  · simp [dcc_scan, check_loaded, h]

/-- Witness for C1 at the concrete unloaded facade. -/
theorem C1_unloaded_rejects_all_witness :
    buic_init unloadedState = (Except.error (PyExc.buicap (pystr "DLL not loaded")), []) ∧
    close unloadedState =
      (Except.error (PyExc.buicap (pystr "DLL not loaded")), unloadedState, []) ∧
    dcc_scan unloadedState none none none none =
      (Except.error (PyExc.buicap (pystr "DLL not loaded")), []) := by
  obtain ⟨-, h2, -, h4, -, -, -, -, -, -, -, h12⟩ :=
    C1_unloaded_rejects_all emptyDict unloadedState rfl
  exact ⟨h2, h4, h12 none none none none⟩

/-- C8: `_error_message` is total on every integer code: a code present in
the dictionary resolves to its description, and a code absent from the
dictionary yields the generic message `Unknown error (code: <code>)`, which
embeds the numeric code. -/
theorem C8_error_message_total (ed : ErrDict) (code : Int) :
    (∀ d, ed code = some d → _error_message ed code = d) ∧
    (ed code = none →
      _error_message ed code =
        pystr "Unknown error (code: " ++ intRepr code ++ pystr ")" ∧
      intRepr code <:+: _error_message ed code) := by
  constructor
  · intro d h
    simp [_error_message, h]
  · intro h
    have he : _error_message ed code =
        pystr "Unknown error (code: " ++ intRepr code ++ pystr ")" := by
      simp [_error_message, h]
    refine ⟨he, ?_⟩
    rw [he]
    exact ⟨pystr "Unknown error (code: ", pystr ")", rfl⟩

/-- Witness for C8 at a code absent from the empty dictionary. -/
theorem C8_error_message_total_witness :
    _error_message emptyDict (-212) =
      pystr "Unknown error (code: " ++ intRepr (-212) ++ pystr ")" ∧
    intRepr (-212) <:+: _error_message emptyDict (-212) :=
  (C8_error_message_total emptyDict (-212)).2 rfl

/-- A library whose `BUICExit` raises, to exercise the failure branch of
`close`. -/
def libExitRaises : NativeLib := { stubLib with BUICExit := Except.error (pystr "boom") }

/-- A loaded facade over `libExitRaises`. -/
def loadedExitRaises : API :=
  { dll_loaded := true, lib := some libExitRaises, dll_path := some (pystr "buicap32.dll") }

/-- C9: after `close` on a Loaded facade completes — whether the native
`BUICExit` call succeeds or raises (no hypothesis is made on its outcome) —
the `lib` handle and `dll_path` are cleared to `None` and `_dll_loaded` is
false, so subsequent operations are rejected with "DLL not loaded" and issue
no native call. -/
theorem C9_close_clears_state (s : API) (h : s.dll_loaded = true) :
    (close s).2.1.dll_loaded = false ∧
    (close s).2.1.lib = none ∧
    (close s).2.1.dll_path = none ∧
    buic_init (close s).2.1 =
      (Except.error (PyExc.buicap (pystr "DLL not loaded")), []) ∧
    (∀ a b c d, dcc_scan (close s).2.1 a b c d =
      (Except.error (PyExc.buicap (pystr "DLL not loaded")), [])) := by
  have hc : (close s).2.1 = unloadedState := by
    cases hl : s.lib with
    | none => simp [close, h, hl, unloadedState]
    | some lib =>
      rcases he : lib.BUICExit with m | r <;> simp [close, h, hl, he, unloadedState]
  refine ⟨by rw [hc]; rfl, by rw [hc]; rfl, by rw [hc]; rfl, ?_, fun a b c d => ?_⟩
  · rw [hc]; simp [buic_init, check_loaded, unloadedState]
  · rw [hc]; simp [dcc_scan, check_loaded, unloadedState]

/-- Witness for C9, for both a `BUICExit` that returns and one that
raises. -/
theorem C9_close_clears_state_witness :
    (close loadedState).2.1.lib = none ∧ (close loadedState).2.1.dll_path = none ∧
    (close loadedExitRaises).2.1.lib = none ∧
    (close loadedExitRaises).2.1.dll_path = none := by
  obtain ⟨-, h2, h3, -, -⟩ := C9_close_clears_state loadedState rfl
  obtain ⟨-, g2, g3, -, -⟩ := C9_close_clears_state loadedExitRaises rfl
  exact ⟨h2, h3, g2, g3⟩

/-- C2 evaluated at its failing input: on a freshly constructed facade the
first `close` succeeds and unloads, but the second `close` is NOT an
error-free no-op — `close` is itself decorated with `@check_loaded`, so it
raises `BuicapException("DLL not loaded")`, and `close`'s own
`if not self._dll_loaded: return` early-return guard is unreachable.  The
facade is Unloaded after each call. -/
theorem C2_second_close_raises_not_loaded :
    (close loadedState).1 = Except.ok 0 ∧
    (close loadedState).2.1.dll_loaded = false ∧
    (close (close loadedState).2.1).1 =
      Except.error (PyExc.buicap (pystr "DLL not loaded")) ∧
    (close (close loadedState).2.1).2.1.dll_loaded = false :=
  ⟨rfl, rfl, rfl, rfl⟩

/-- C4 evaluated at its failing input: `setup_functions` resolves
`BUICClearDocument` at load time, but the symbol `buic_clean_document`
actually invokes is `BUICCleanDocument`, which is NOT among the symbols
resolved at load time.  Hence a vendor library exporting exactly the symbols
`setup_functions` touches passes construction, and its missing
`BUICCleanDocument` surfaces only on the first `buic_clean_document`
call — the missing-symbol failure is deferred, contrary to the claim. -/
theorem C4_clean_document_symbol_deferred :
    construction_resolves setup_symbols = true ∧
    setup_symbols.contains "BUICCleanDocument" = false ∧
    (buic_clean_document loadedState).2 = ["BUICCleanDocument"] :=
  ⟨rfl, rfl, rfl⟩

/-- C5: while Loaded, `dcc_clean_mode` and `docket_port_calibrate` with a
mode outside {0, 1}, and `buic_eject_pocket` with a non-zero pocket, raise a
failure and invoke no native library function (empty native-call trace). -/
theorem C5_range_precondition_no_native_call (s : API) (h : s.dll_loaded = true) :
    (∀ m, ¬(m = 0 ∨ m = 1) → ∃ e, dcc_clean_mode s m = (Except.error e, [])) ∧
    (∀ m, ¬(m = 0 ∨ m = 1) → ∃ e, docket_port_calibrate s m = (Except.error e, [])) ∧
    (∀ d p, p ≠ 0 → ∃ e, buic_eject_pocket s d p = (Except.error e, [])) := by
  refine ⟨fun m hm => ?_, fun m hm => ?_, fun d p hp => ?_⟩
  · exact ⟨PyExc.valueError (pystr "iMode must be 0 or 1"),
      by simp [dcc_clean_mode, check_loaded, h, hm]⟩
  · exact ⟨PyExc.valueError (pystr "iMode must be 0 or 1"),
      by simp [docket_port_calibrate, check_loaded, h, hm]⟩
  · exact ⟨PyExc.buicap (pystr "Failed to eject pocket"),
      by simp [buic_eject_pocket, check_loaded, h, hp]⟩

/-- Witness for C5 at concrete out-of-range inputs. -/
theorem C5_range_precondition_no_native_call_witness :
    (∃ e, dcc_clean_mode loadedState 2 = (Except.error e, [])) ∧
    (∃ e, docket_port_calibrate loadedState (-1) = (Except.error e, [])) ∧
    (∃ e, buic_eject_pocket loadedState 1 5 = (Except.error e, [])) := by
  obtain ⟨h1, h2, h3⟩ := C5_range_precondition_no_native_call loadedState rfl
  exact ⟨h1 2 (by decide), h2 (-1) (by decide), h3 1 5 (by decide)⟩

/-- C10: the precondition failures at the public interface have inconsistent
types: an out-of-range mode makes `dcc_clean_mode` and
`docket_port_calibrate` raise the bare built-in
`ValueError("iMode must be 0 or 1")`, while `buic_eject_pocket` raises its
`ValueError("iPocket must be 0")` inside the guarded try block, so the
caller observes `BuicapException("Failed to eject pocket")` and the specific
"iPocket must be 0" detail is not contained in what the caller sees. -/
theorem C10_precondition_exception_types (s : API) (h : s.dll_loaded = true) :
    (∀ m, ¬(m = 0 ∨ m = 1) →
      dcc_clean_mode s m =
        (Except.error (PyExc.valueError (pystr "iMode must be 0 or 1")), []) ∧
      docket_port_calibrate s m =
        (Except.error (PyExc.valueError (pystr "iMode must be 0 or 1")), [])) ∧
    (∀ d p, p ≠ 0 →
      buic_eject_pocket s d p =
        (Except.error (PyExc.buicap (pystr "Failed to eject pocket")), [])) ∧
    ¬ pystr "iPocket must be 0" <:+: pystr "Failed to eject pocket" := by
  refine ⟨fun m hm => ⟨?_, ?_⟩, fun d p hp => ?_, by decide⟩
  · simp [dcc_clean_mode, check_loaded, h, hm]
  · simp [docket_port_calibrate, check_loaded, h, hm]
  · simp [buic_eject_pocket, check_loaded, h, hp]

/-- Witness for C10 at concrete out-of-range inputs. -/
theorem C10_precondition_exception_types_witness :
    dcc_clean_mode loadedState 7 =
      (Except.error (PyExc.valueError (pystr "iMode must be 0 or 1")), []) ∧
    docket_port_calibrate loadedState 7 =
      (Except.error (PyExc.valueError (pystr "iMode must be 0 or 1")), []) ∧
    buic_eject_pocket loadedState 0 1 =
      (Except.error (PyExc.buicap (pystr "Failed to eject pocket")), []) ∧
    ¬ pystr "iPocket must be 0" <:+: pystr "Failed to eject pocket" := by
  obtain ⟨h1, h2, h3⟩ := C10_precondition_exception_types loadedState rfl
  exact ⟨(h1 7 (by decide)).1, (h1 7 (by decide)).2, h2 0 1 (by decide), h3⟩

/-- A library whose calls return vendor failure codes: `BUICInit` returns
-100, both parameter setters return -212, and `DCCScan` reports code -5. -/
def libNegCodes : NativeLib :=
  { stubLib with
    BUICInit := Except.ok (-100)
    BUICSetParamString := fun _ _ => Except.ok (-212)
    BUICSetParam := fun _ _ => Except.ok (-212)
    DCCScan := fun _ _ _ _ =>
      Except.ok { code := -5, micrBuf := fun _ => 0, imageQuality := 0, contrast := 0,
                  docStatusBuf := fun _ => 0 } }

/-- A loaded facade over `libNegCodes`. -/
def loadedNegCodes : API :=
  { dll_loaded := true, lib := some libNegCodes, dll_path := some (pystr "buicap32.dll") }

/-- C3 counterexample: while Loaded, a negative code from `BUICInit` is NOT
surfaced as a typed failure — `buic_init` returns it as a normal result (its
try/except only converts exceptions, never inspects the code) — and
`dcc_scan` likewise embeds a negative native status code in its result dict
without raising. -/
theorem C3_counterexample_negative_codes_passed_through :
    buic_init loadedNegCodes = (Except.ok (-100), ["BUICInit"]) ∧
    (dcc_scan loadedNegCodes none none none none).1 =
      Except.ok { micr := [], final_image_quality := 0, final_contrast := 0,
                  doc_status := List.replicate 32 0, result := -5 } :=
  ⟨rfl, rfl⟩

/-- C3 (amended): while Loaded, `buic_set_param` raises a typed
`BuicapException` on a negative native code, whose message carries the
dictionary-resolved description and the attempted parameter; but `buic_init`
and `dcc_scan` pass the native numeric code through unchanged as a normal
result, even when it is negative. -/
theorem C3_amended_failure_surfacing (ed : ErrDict) (s : API) (lib : NativeLib)
    (h : s.dll_loaded = true) (hl : s.lib = some lib) :
    (∀ r, lib.BUICInit = Except.ok r → buic_init s = (Except.ok r, ["BUICInit"])) ∧
    (∀ a b c d raw, lib.DCCScan a b c d = Except.ok raw →
      (dcc_scan s a b c d).1 = Except.ok
        { micr := micr_text_of raw.micrBuf, final_image_quality := raw.imageQuality
          final_contrast := raw.contrast
          doc_status := (List.range 32).map raw.docStatusBuf, result := raw.code }) ∧
    (∀ p v r, lib.BUICSetParam p v = Except.ok r → r < 0 →
      buic_set_param ed s p v =
        (Except.error (PyExc.buicap
          (pystr "Failed to set parameter " ++ intRepr p ++ pystr ": " ++
            _error_message ed r)), ["BUICSetParam"])) := by
  refine ⟨fun r hr => ?_, fun a b c d raw hraw => ?_, fun p v r hr hneg => ?_⟩
  · simp [buic_init, check_loaded, h, hl, hr]
  · simp [dcc_scan, check_loaded, h, hl, hraw]
  · simp [buic_set_param, check_loaded, h, hl, hr, hneg]

/-- Witness for the amended C3 over `libNegCodes`. -/
theorem C3_amended_failure_surfacing_witness :
    buic_init loadedNegCodes = (Except.ok (-100), ["BUICInit"]) ∧
    buic_set_param emptyDict loadedNegCodes 7 1 =
      (Except.error (PyExc.buicap
        (pystr "Failed to set parameter " ++ intRepr 7 ++ pystr ": " ++
          _error_message emptyDict (-212))), ["BUICSetParam"]) := by
  obtain ⟨h1, -, h3⟩ :=
    C3_amended_failure_surfacing emptyDict loadedNegCodes libNegCodes rfl rfl
  exact ⟨h1 (-100) rfl, h3 7 1 (-212) rfl (by decide)⟩

/-- C6: while Loaded, a native code defined as an error for the two setter
operations (non-zero for `buic_set_param_string`, negative for
`buic_set_param`) raises a `BuicapException` whose message contains both the
dictionary-resolved description of the code and the parameter identifier
that was passed. -/
theorem C6_set_param_failure_message (ed : ErrDict) (s : API) (lib : NativeLib)
    (h : s.dll_loaded = true) (hl : s.lib = some lib) :
    (∀ p v r, lib.BUICSetParamString p v = Except.ok r → r ≠ 0 →
      buic_set_param_string ed s p v =
        (Except.error (PyExc.buicap
          (pystr "Failed to set parameter " ++ intRepr p ++ pystr ": " ++
            _error_message ed r)), ["BUICSetParamString"]) ∧
      _error_message ed r <:+:
        pystr "Failed to set parameter " ++ intRepr p ++ pystr ": " ++
          _error_message ed r ∧
      intRepr p <:+:
        pystr "Failed to set parameter " ++ intRepr p ++ pystr ": " ++
          _error_message ed r) ∧
    (∀ p v r, lib.BUICSetParam p v = Except.ok r → r < 0 →
      buic_set_param ed s p v =
        (Except.error (PyExc.buicap
          (pystr "Failed to set parameter " ++ intRepr p ++ pystr ": " ++
            _error_message ed r)), ["BUICSetParam"]) ∧
      _error_message ed r <:+:
        pystr "Failed to set parameter " ++ intRepr p ++ pystr ": " ++
          _error_message ed r ∧
      intRepr p <:+:
        pystr "Failed to set parameter " ++ intRepr p ++ pystr ": " ++
          _error_message ed r) := by
  refine ⟨fun p v r hr hne => ⟨?_, ?_, ?_⟩, fun p v r hr hneg => ⟨?_, ?_, ?_⟩⟩
  · simp [buic_set_param_string, check_loaded, h, hl, hr, hne]
  · exact ⟨pystr "Failed to set parameter " ++ intRepr p ++ pystr ": ", [], by simp⟩
  · exact ⟨pystr "Failed to set parameter ",
      pystr ": " ++ _error_message ed r, by simp⟩
  · simp [buic_set_param, check_loaded, h, hl, hr, hneg]
  · exact ⟨pystr "Failed to set parameter " ++ intRepr p ++ pystr ": ", [], by simp⟩
  · exact ⟨pystr "Failed to set parameter ",
      pystr ": " ++ _error_message ed r, by simp⟩

/-- Witness for C6 over `libNegCodes` with the empty dictionary. -/
theorem C6_set_param_failure_message_witness :
    (buic_set_param_string emptyDict loadedNegCodes 3 (pystr "NOINI") =
      (Except.error (PyExc.buicap
        (pystr "Failed to set parameter " ++ intRepr 3 ++ pystr ": " ++
          _error_message emptyDict (-212))), ["BUICSetParamString"]) ∧
      _error_message emptyDict (-212) <:+:
        pystr "Failed to set parameter " ++ intRepr 3 ++ pystr ": " ++
          _error_message emptyDict (-212) ∧
      intRepr 3 <:+:
        pystr "Failed to set parameter " ++ intRepr 3 ++ pystr ": " ++
          _error_message emptyDict (-212)) ∧
    (buic_set_param emptyDict loadedNegCodes 7 1 =
      (Except.error (PyExc.buicap
        (pystr "Failed to set parameter " ++ intRepr 7 ++ pystr ": " ++
          _error_message emptyDict (-212))), ["BUICSetParam"]) ∧
      _error_message emptyDict (-212) <:+:
        pystr "Failed to set parameter " ++ intRepr 7 ++ pystr ": " ++
          _error_message emptyDict (-212) ∧
      intRepr 7 <:+:
        pystr "Failed to set parameter " ++ intRepr 7 ++ pystr ": " ++
          _error_message emptyDict (-212)) := by
  obtain ⟨h1, h2⟩ :=
    C6_set_param_failure_message emptyDict loadedNegCodes libNegCodes rfl rfl
  exact ⟨h1 3 (pystr "NOINI") (-212) rfl (by decide), h2 7 1 (-212) rfl (by decide)⟩

/-- `py_strip` is Mathlib's `rdropWhile` after a leading `dropWhile`. -/
theorem py_strip_eq_rdropWhile (cs : List Char) :
    py_strip cs = List.rdropWhile py_isspace (List.dropWhile py_isspace cs) := rfl

/-- The last character of a stripped string is never Python whitespace. -/
theorem getLast?_py_strip (cs : List Char) (c : Char)
    (h : (py_strip cs).getLast? = some c) : py_isspace c = false := by
  have hg : (py_strip cs).getLast? =
      (((cs.dropWhile py_isspace).reverse).dropWhile py_isspace).head? := by
    simp [py_strip]
  rw [hg] at h
  have hd := List.head?_dropWhile_not py_isspace ((cs.dropWhile py_isspace).reverse)
  rw [h] at hd
  exact hd

/-- The first character of a stripped string is never Python whitespace. -/
theorem head?_py_strip (cs : List Char) (c : Char)
    (h : (py_strip cs).head? = some c) : py_isspace c = false := by
  rw [py_strip_eq_rdropWhile] at h
  obtain ⟨t, ht⟩ := List.rdropWhile_prefix py_isspace (cs.dropWhile py_isspace)
  have hne : List.rdropWhile py_isspace (cs.dropWhile py_isspace) ≠ [] := by
    intro he
    rw [he] at h
    simp at h
  have hhY : (cs.dropWhile py_isspace).head? = some c := by
    rw [← ht, List.head?_append_of_ne_nil _ hne]
    exact h
  have hd := List.head?_dropWhile_not py_isspace cs
  rw [hhY] at hd
  exact hd

/-- C7: while Loaded, `dcc_scan` with all four output paths omitted (passed
as null) returns a result whose recognized-text field is computed from the
fixed 80-byte MICR buffer by taking bytes up to the first null terminator,
dropping undecodable (non-ASCII) bytes rather than failing, and trimming
surrounding whitespace; whose two integer fields are the native output
integers; whose status array has exactly 32 entries; and whose `result`
field is the native status code.  The trimming is real: the first and last
characters of the recognized text are never Python whitespace. -/
theorem C7_scan_result_structure (s : API) (lib : NativeLib) (raw : ScanRaw)
    (h : s.dll_loaded = true) (hl : s.lib = some lib)
    (hscan : lib.DCCScan none none none none = Except.ok raw) :
    dcc_scan s none none none none =
      (Except.ok
        { micr := py_strip (decode_ascii_ignore (bytes_before_null
            ((List.range 80).map raw.micrBuf)))
          final_image_quality := raw.imageQuality
          final_contrast := raw.contrast
          doc_status := (List.range 32).map raw.docStatusBuf
          result := raw.code }, ["DCCScan"]) ∧
    ((List.range 32).map raw.docStatusBuf).length = 32 ∧
    ((List.range 80).map raw.micrBuf).length = 80 ∧
    (∀ c, (py_strip (decode_ascii_ignore (bytes_before_null
        ((List.range 80).map raw.micrBuf)))).head? = some c → py_isspace c = false) ∧
    (∀ c, (py_strip (decode_ascii_ignore (bytes_before_null
        ((List.range 80).map raw.micrBuf)))).getLast? = some c →
      py_isspace c = false) := by
  refine ⟨?_, by simp, by simp, fun c hc => head?_py_strip _ _ hc,
    fun c hc => getLast?_py_strip _ _ hc⟩
  simp [dcc_scan, check_loaded, h, hl, hscan, micr_text_of]

/-- A sample MICR buffer: a leading space, an undecodable byte 229, the text
"A1", a trailing space, the null terminator, then garbage the wrapper must
ignore. -/
def micrSample : Nat → Nat := fun i =>
  if i = 0 then 32
  else if i = 1 then 229
  else if i = 2 then 65
  else if i = 3 then 49
  else if i = 4 then 32
  else if i = 5 then 0
  else 66

/-- A library whose scan reports the `micrSample` buffer, quality 87,
contrast 60, and doc-status slot value equal to the slot index. -/
def libScanSample : NativeLib :=
  { stubLib with
    DCCScan := fun _ _ _ _ =>
      Except.ok { code := 0, micrBuf := micrSample, imageQuality := 87, contrast := 60,
                  docStatusBuf := fun i => Int.ofNat i } }

/-- A loaded facade over `libScanSample`. -/
def loadedScanSample : API :=
  { dll_loaded := true, lib := some libScanSample, dll_path := some (pystr "buicap32.dll") }

/-- Witness for C7: the sample buffer decodes to exactly "A1" (terminator
respected, byte 229 dropped, surrounding spaces trimmed), and the status
array has 32 entries. -/
theorem C7_scan_result_structure_witness :
    dcc_scan loadedScanSample none none none none =
      (Except.ok
        { micr := pystr "A1", final_image_quality := 87, final_contrast := 60,
          doc_status := (List.range 32).map (fun i => Int.ofNat i), result := 0 },
        ["DCCScan"]) ∧
    ((List.range 32).map (fun i : Nat => Int.ofNat i)).length = 32 := by
  have h := C7_scan_result_structure loadedScanSample libScanSample
    { code := 0, micrBuf := micrSample, imageQuality := 87, contrast := 60,
      docStatusBuf := fun i => Int.ofNat i } rfl rfl rfl
  refine ⟨?_, h.2.1⟩
  rw [h.1]
  have he : py_strip (decode_ascii_ignore (bytes_before_null
      ((List.range 80).map micrSample))) = pystr "A1" := by decide
  rw [he]

end BuicapPy
